import Mathlib

/-!
Shallow embedding of the core of `genai-automotive-chatbot`
(src/app/agent.py, agent_aws.py, database.py, database_aws.py, config.py,
config_aws.py) and proofs about the claims of its specification.

External collaborators (the LangChain `AgentExecutor`, the `SQLDatabase`
connection, the environment) are modelled as explicit parameters: an
operation of the source that may raise a Python exception is embedded as
an `Except String` value, the exception's `str(e)` being the error string.
-/

/-- `a` starts with the character list `p`. -/
def charsLeadWith : List Char → List Char → Bool
  | [], _ => true
  | _ :: _, [] => false
  | p :: ps, c :: cs => p == c && charsLeadWith ps cs

/-- `pat` occurs as a contiguous sublist of the character list. -/
def charsContain : List Char → List Char → Bool
  | pat, [] => pat.isEmpty
  | pat, c :: cs => charsLeadWith pat (c :: cs) || charsContain pat cs

/-- Python's `s.lower()` (ASCII lowering, which is all the tool names
inspected by the source ever need). -/
def pyLower (s : String) : String := String.mk (s.data.map Char.toLower)

/-- Python's substring test `pat in s` on strings. -/
def strContains (s pat : String) : Bool := charsContain pat.data s.data

/-- A LangChain agent-action record as duck-typed by
`SQLAgentManager.query`: the field is `some` exactly when the Python
object `hasattr` the corresponding attribute (`tool` / `tool_input`). -/
structure AgentAction where
  tool : Option String
  tool_input : Option String
deriving DecidableEq, Repr

/-- One entry of `result["intermediate_steps"]`: a LangChain intermediate
step is the pair `(action, observation)`, so the source's defensive
`len(step) >= 2` test is always true and the pair embeds the step. -/
structure Step where
  action : AgentAction
  observation : String
deriving DecidableEq, Repr

/-- The SQL-extraction loop inside `SQLAgentManager.query`
(src/app/agent.py lines 142-149; identical in src/app/agent_aws.py lines
151-158): for each step whose action has a `tool` attribute with `'sql'`
in its lowercased name and has a `tool_input` attribute, append
`action.tool_input` to `sql_queries`, in step order. -/
def extract_sql (steps : List Step) : List String :=
  steps.filterMap fun step =>
    match step.action.tool with
    | none => none
    | some t =>
      if strContains (pyLower t) "sql" then step.action.tool_input else none

/-- The dictionary returned by `agent.invoke` in `SQLAgentManager.query`:
`output` is `some` when the key `"output"` is present (the source's
`result.get("output", "No response generated")` handles its absence),
`intermediate_steps` defaults to `[]` likewise. -/
structure AgentResult where
  output : Option String
  intermediate_steps : List Step
deriving Repr

/-- The result dictionary of `SQLAgentManager.query`: each optional field
is `some` exactly when the source puts that key into the returned dict. -/
structure QueryResult where
  status : String
  question : String
  answer : Option String
  sql_queries : Option (List String)
  steps_count : Option Nat
  error : Option String
deriving DecidableEq, Repr

/-- `SQLAgentManager.query` (src/app/agent.py lines 120-165). `invoke`
embeds `self.create_agent()` followed by `agent.invoke({"input": question})`:
`Except.error e` is the branch in which that raises with message `str(e)`,
caught by the source's `except` clause. -/
def SQLAgentManager.query (invoke : String → Except String AgentResult)
    (question : String) : QueryResult :=
  match invoke question with
  | Except.error e =>
    { status := "error", question := question, answer := none,
      sql_queries := none, steps_count := none, error := some e }
  | Except.ok result =>
    { status := "success", question := question,
      answer := some (result.output.getD "No response generated"),
      sql_queries := some (extract_sql result.intermediate_steps),
      steps_count := some result.intermediate_steps.length,
      error := none }

/-- `SQLAgentManagerAWS.query` (src/app/agent_aws.py lines 129-174), which
is line-for-line the same logic as `SQLAgentManager.query`. -/
def SQLAgentManagerAWS.query (invoke : String → Except String AgentResult)
    (question : String) : QueryResult :=
  match invoke question with
  | Except.error e =>
    { status := "error", question := question, answer := none,
      sql_queries := none, steps_count := none, error := some e }
  | Except.ok result =>
    { status := "success", question := question,
      answer := some (result.output.getD "No response generated"),
      sql_queries := some (extract_sql result.intermediate_steps),
      steps_count := some result.intermediate_steps.length,
      error := none }

/-- Following the spec's words for claim C1: keep only the steps whose
action is SQL execution — the SQLDatabaseToolkit execute tool is named
`sql_db_query` — excluding the schema-listing (`sql_db_list_tables`),
table-description (`sql_db_schema`) and checker (`sql_db_query_checker`)
actions, and return their inputs in order. -/
def extract_sql_spec (steps : List Step) : List String :=
  steps.filterMap fun step =>
    if step.action.tool == some "sql_db_query" then step.action.tool_input
    else none

/-- A step that the source's extraction keeps: its action has a `tool`
attribute whose lowercased name contains `"sql"` and has a `tool_input`
attribute. -/
def isSqlStep (s : Step) : Bool :=
  match s.action.tool, s.action.tool_input with
  | some t, some _ => strContains (pyLower t) "sql"
  | _, _ => false

/-- A table-description step, as produced by the SQLDatabaseToolkit's
schema tool: not a SQL-execution action, yet its tool name contains
`"sql"`. -/
def schemaStep : Step :=
  { action := { tool := some "sql_db_schema",
                tool_input := some "vehicles, dealerships" },
    observation := "CREATE TABLE vehicles ..." }

/-- A `filterMap` whose function agrees pointwise with
`if p a then some (f a) else none` is `map f` after `filter p`. -/
theorem filterMap_eq_map_filter {α β : Type} (g : α → Option β)
    (p : α → Bool) (f : α → β)
    (h : ∀ a, g a = if p a then some (f a) else none) :
    ∀ l : List α, l.filterMap g = (l.filter p).map f := by
  intro l
  induction l with
  | nil => rfl
  | cons a l ih =>
    rw [List.filterMap_cons, List.filter_cons, h a]
    by_cases hp : p a = true
    · simp [hp, ih]
    · have hpf : p a = false := by simpa using hp
      simp [hpf, ih]

/-- C1, counterexample: on the one-step trajectory whose single action is
the table-description tool `sql_db_schema` — zero execute-actions, so the
claim demands zero extracted strings — the extraction of
`SQLAgentManager.query` returns that step's input, because the filter
`'sql' in action.tool.lower()` also matches the schema tool's name. -/
theorem C1_counterexample :
    extract_sql [schemaStep] = ["vehicles, dealerships"] ∧
    extract_sql_spec [schemaStep] = [] ∧
    extract_sql [schemaStep] ≠ extract_sql_spec [schemaStep] := by
  refine ⟨by decide, by decide, by decide⟩

/-- C1, amended: the extraction returns exactly the inputs of the steps
whose action carries a `tool` name containing `"sql"` (case-insensitively)
and a `tool_input` — in trajectory order, preserving duplicates; an empty
trajectory yields the empty list. Since every SQLDatabaseToolkit tool name
contains `"sql"`, schema-listing and table-description inputs are included
as well, not excluded. -/
theorem C1_amended (steps : List Step) :
    extract_sql steps =
      (steps.filter isSqlStep).map (fun s => s.action.tool_input.getD "") := by
  unfold extract_sql
  refine filterMap_eq_map_filter _ isSqlStep _ ?_ steps
  intro a
  unfold isSqlStep
  cases htool : a.action.tool with
  | none => simp [htool]
  | some t =>
    cases hinp : a.action.tool_input with
    | none =>
      by_cases hc : strContains (pyLower t) "sql" = true <;>
        simp [htool, hinp, hc]
    | some i =>
      by_cases hc : strContains (pyLower t) "sql" = true <;>
        simp [htool, hinp, hc]

/-- C3: when the agent invocation raises with message `e`, the result of
`SQLAgentManager.query` (and of the identical AWS variant) is exactly the
error dictionary: status `"error"`, the error string, the question — and
no answer, no `sql_queries`, no `steps_count`. The embedding of `query`
is a total function, reflecting that the source's `try/except` converts
every exception into this dictionary instead of re-raising. -/
theorem C3_error_result_clean (invoke : String → Except String AgentResult)
    (question e : String) (h : invoke question = Except.error e) :
    SQLAgentManager.query invoke question =
      { status := "error", question := question, answer := none,
        sql_queries := none, steps_count := none, error := some e } ∧
    SQLAgentManagerAWS.query invoke question =
      { status := "error", question := question, answer := none,
        sql_queries := none, steps_count := none, error := some e } := by
  unfold SQLAgentManager.query SQLAgentManagerAWS.query
  rw [h]
  exact ⟨rfl, rfl⟩

/-- C3, witness: an agent whose invocation always raises
`"connection refused"`. -/
theorem C3_witness :
    SQLAgentManager.query (fun _ => Except.error "connection refused") "q" =
      { status := "error", question := "q", answer := none,
        sql_queries := none, steps_count := none,
        error := some "connection refused" } ∧
    SQLAgentManagerAWS.query (fun _ => Except.error "connection refused") "q" =
      { status := "error", question := "q", answer := none,
        sql_queries := none, steps_count := none,
        error := some "connection refused" } :=
  C3_error_result_clean (fun _ => Except.error "connection refused") "q"
    "connection refused" rfl

/-- C4: every result of `SQLAgentManager.query` has status `"success"` or
`"error"`; a success result carries an answer, a `sql_queries` list and a
`steps_count` and no error message; an error result carries a single error
message and no answer, no SQL list, no step count. -/
theorem C4_result_shape (invoke : String → Except String AgentResult)
    (question : String) :
    ((SQLAgentManager.query invoke question).status = "success" ∧
     (SQLAgentManager.query invoke question).answer.isSome = true ∧
     (SQLAgentManager.query invoke question).sql_queries.isSome = true ∧
     (SQLAgentManager.query invoke question).steps_count.isSome = true ∧
     (SQLAgentManager.query invoke question).error = none) ∨
    ((SQLAgentManager.query invoke question).status = "error" ∧
     (SQLAgentManager.query invoke question).error.isSome = true ∧
     (SQLAgentManager.query invoke question).answer = none ∧
     (SQLAgentManager.query invoke question).sql_queries = none ∧
     (SQLAgentManager.query invoke question).steps_count = none) := by
  cases hiq : invoke question with
  | error e =>
    right
    simp [SQLAgentManager.query, hiq]
  | ok r =>
    left
    simp [SQLAgentManager.query, hiq]

/-- C9: on every result of `SQLAgentManager.query` that carries a
`sql_queries` list and a `steps_count` (i.e. every success result), the
list's length is at most `steps_count`: the extraction appends at most one
string per intermediate step. -/
theorem C9_sql_le_steps (invoke : String → Except String AgentResult)
    (question : String) (l : List String) (n : Nat)
    (hl : (SQLAgentManager.query invoke question).sql_queries = some l)
    (hn : (SQLAgentManager.query invoke question).steps_count = some n) :
    l.length ≤ n := by
  cases hiq : invoke question with
  | error e => simp [SQLAgentManager.query, hiq] at hl
  | ok r =>
    simp [SQLAgentManager.query, hiq] at hl hn
    rw [← hl, ← hn]
    unfold extract_sql
    exact List.length_filterMap_le _ _

/-- C9, witness: a one-step trajectory with an execute action yields one
SQL string and `steps_count` one. -/
theorem C9_witness :
    (SQLAgentManager.query
        (fun _ => Except.ok
          { output := some "done",
            intermediate_steps :=
              [{ action := { tool := some "sql_db_query",
                             tool_input := some "SELECT 1" },
                 observation := "1" }] })
        "q").sql_queries = some ["SELECT 1"] ∧
    (SQLAgentManager.query
        (fun _ => Except.ok
          { output := some "done",
            intermediate_steps :=
              [{ action := { tool := some "sql_db_query",
                             tool_input := some "SELECT 1" },
                 observation := "1" }] })
        "q").steps_count = some 1 ∧
    (["SELECT 1"] : List String).length ≤ 1 :=
  ⟨by decide, by decide,
    C9_sql_le_steps
      (fun _ => Except.ok
        { output := some "done",
          intermediate_steps :=
            [{ action := { tool := some "sql_db_query",
                           tool_input := some "SELECT 1" },
               observation := "1" }] })
      "q" ["SELECT 1"] 1 (by decide) (by decide)⟩

/-- C10: every result of `SQLAgentManager.query` and of
`SQLAgentManagerAWS.query` — success or error — carries a `question` field
equal to the input question verbatim. -/
theorem C10_question_echo (invoke : String → Except String AgentResult)
    (question : String) :
    (SQLAgentManager.query invoke question).question = question ∧
    (SQLAgentManagerAWS.query invoke question).question = question := by
  unfold SQLAgentManager.query SQLAgentManagerAWS.query
  cases invoke question <;> exact ⟨rfl, rfl⟩

/-- Modelled from the spec: the planning output of the completion
capability, parsed by the Reasoning Loop into either a next action with
its input or a final answer (spec section 4.2). The loop itself (the
LangChain `AgentExecutor` that `create_sql_agent` builds) is not part of
this repository's sources — only its caller `SQLAgentManager.query` is. -/
inductive PlanOutput where
  | action (name input : String) : PlanOutput
  | finish (answer : String) : PlanOutput

/-- Modelled from the spec: the names of the Action Catalog, i.e. the
SQLDatabaseToolkit tools (list tables, describe tables, check a query,
execute a query). -/
def catalogTools : List String :=
  ["sql_db_query", "sql_db_schema", "sql_db_list_tables",
   "sql_db_query_checker"]

/-- Modelled from the spec: one bounded run of the Reasoning Loop
(spec section 4.2), recursing on the remaining step budget. Each planning
turn sees the trajectory so far; an unknown action name is folded into a
synthetic invalid-tool observation (a recoverable per-step error) and
still consumes one step of budget; a final answer stops the loop; an
exhausted budget force-stops with the stop message as best-effort
output. -/
def runLoopAux (plan : List Step → PlanOutput)
    (invokeTool : String → String → String) :
    Nat → List Step → AgentResult
  | 0, steps =>
    { output := some "Agent stopped due to iteration limit or time limit.",
      intermediate_steps := steps }
  | n + 1, steps =>
    match plan steps with
    | PlanOutput.finish answer =>
      { output := some answer, intermediate_steps := steps }
    | PlanOutput.action name input =>
      let obs :=
        if catalogTools.contains name then invokeTool name input
        else name ++ " is not a valid tool, try one of " ++
          "[sql_db_query, sql_db_schema, sql_db_list_tables, " ++
          "sql_db_query_checker]."
      runLoopAux plan invokeTool n
        (steps ++ [{ action := { tool := some name, tool_input := some input },
                     observation := obs }])

/-- Modelled from the spec: the Reasoning Loop run from an empty
trajectory with step budget `max_iterations`, the value
`SQLAgentManager.create_agent` passes to the loop
(src/app/agent.py line 101). -/
def runLoop (plan : List Step → PlanOutput)
    (invokeTool : String → String → String) (max_iterations : Nat) :
    AgentResult :=
  runLoopAux plan invokeTool max_iterations []

/-- The loop adds at most one step per unit of remaining budget. -/
theorem runLoopAux_length_le (plan : List Step → PlanOutput)
    (invokeTool : String → String → String) :
    ∀ (n : Nat) (steps : List Step),
      (runLoopAux plan invokeTool n steps).intermediate_steps.length ≤
        steps.length + n := by
  intro n
  induction n with
  | zero => intro steps; simp [runLoopAux]
  | succ n ih =>
    intro steps
    unfold runLoopAux
    cases plan steps with
    | finish answer => simp
    | action name input =>
      have h := ih (steps ++
        [{ action := { tool := some name, tool_input := some input },
           observation :=
             if catalogTools.contains name then invokeTool name input
             else name ++ " is not a valid tool, try one of " ++
               "[sql_db_query, sql_db_schema, sql_db_list_tables, " ++
               "sql_db_query_checker]." }])
      simp only [List.length_append, List.length_cons, List.length_nil] at h
      calc (runLoopAux plan invokeTool n _).intermediate_steps.length
          ≤ steps.length + 1 + n := h
        _ = steps.length + (n + 1) := by omega

/-- A plan that never produces a final answer drives the loop to exhaust
its whole budget, adding exactly one step per unit and force-stopping. -/
theorem runLoopAux_no_finish (plan : List Step → PlanOutput)
    (invokeTool : String → String → String)
    (hplan : ∀ s, ∃ name input, plan s = PlanOutput.action name input) :
    ∀ (n : Nat) (steps : List Step),
      (runLoopAux plan invokeTool n steps).intermediate_steps.length =
          steps.length + n ∧
        (runLoopAux plan invokeTool n steps).output =
          some "Agent stopped due to iteration limit or time limit." := by
  intro n
  induction n with
  | zero => intro steps; simp [runLoopAux]
  | succ n ih =>
    intro steps
    obtain ⟨name, input, hp⟩ := hplan steps
    unfold runLoopAux
    rw [hp]
    have h := ih (steps ++
      [{ action := { tool := some name, tool_input := some input },
         observation :=
           if catalogTools.contains name then invokeTool name input
           else name ++ " is not a valid tool, try one of " ++
             "[sql_db_query, sql_db_schema, sql_db_list_tables, " ++
             "sql_db_query_checker]." }])
    simp only [List.length_append, List.length_cons, List.length_nil] at h
    exact ⟨by rw [h.1]; omega, h.2⟩

/-- C2, counterexample: an agent invocation that returns normally but with
no answer text at all (no `"output"` key, empty trajectory) still yields
status `"success"` — the source substitutes the placeholder
`"No response generated"` instead of switching to status `"error"`, so
"no answer text exists" does not imply an error result. -/
theorem C2_counterexample :
    (SQLAgentManager.query
        (fun _ => Except.ok { output := none, intermediate_steps := [] })
        "q").status = "success" ∧
    (SQLAgentManager.query
        (fun _ => Except.ok { output := none, intermediate_steps := [] })
        "q").answer = some "No response generated" := by
  exact ⟨rfl, rfl⟩

/-- C2, amended: when the completion capability always proposes an action
(for instance an invalid action name) and never a final answer, the loop
exhausts `max_iterations` steps and force-stops, and
`SQLAgentManager.query` returns status `"success"` with the best-effort
stop message as answer and `steps_count = max_iterations`; moreover every
normally returning agent invocation — whatever its answer text, even
absent — yields status `"success"`: status `"error"` arises only when the
invocation raises, never from a missing answer text. -/
theorem C2_amended (name input : String)
    (invokeTool : String → String → String) (maxIter : Nat)
    (question : String) :
    ((SQLAgentManager.query
        (fun _ => Except.ok
          (runLoop (fun _ => PlanOutput.action name input) invokeTool
            maxIter))
        question).status = "success" ∧
     (SQLAgentManager.query
        (fun _ => Except.ok
          (runLoop (fun _ => PlanOutput.action name input) invokeTool
            maxIter))
        question).steps_count = some maxIter ∧
     (SQLAgentManager.query
        (fun _ => Except.ok
          (runLoop (fun _ => PlanOutput.action name input) invokeTool
            maxIter))
        question).answer =
       some "Agent stopped due to iteration limit or time limit.") ∧
    ∀ res : AgentResult,
      (SQLAgentManager.query (fun _ => Except.ok res) question).status =
        "success" := by
  have h := runLoopAux_no_finish (fun _ => PlanOutput.action name input)
    invokeTool (fun _ => ⟨name, input, rfl⟩) maxIter []
  refine ⟨⟨rfl, ?_, ?_⟩, fun res => rfl⟩
  · simp only [SQLAgentManager.query, runLoop]
    rw [h.1]
    simp
  · simp only [SQLAgentManager.query, runLoop]
    rw [h.2]
    rfl

/-- C6: the trajectory of one loop run never exceeds the configured step
budget: the `steps_count` that `SQLAgentManager.query` reports for a run
of the loop with budget `max_iterations` is some `k` with
`k ≤ max_iterations`. -/
theorem C6_steps_budget (plan : List Step → PlanOutput)
    (invokeTool : String → String → String) (maxIter : Nat)
    (question : String) :
    ∃ k, (SQLAgentManager.query
            (fun _ => Except.ok (runLoop plan invokeTool maxIter))
            question).steps_count = some k ∧
         k ≤ maxIter := by
  refine ⟨(runLoop plan invokeTool maxIter).intermediate_steps.length,
    rfl, ?_⟩
  have h := runLoopAux_length_le plan invokeTool maxIter []
  simpa [runLoop] using h

/-- The external LangChain `SQLDatabase` connection consumed by the
database wrappers: each operation either returns a string or raises
(embedded as `Except.error` carrying `str(e)`). -/
structure Database where
  run : String → Except String String
  get_table_info : Option (List String) → Except String String

/-- The mutable state of `BigQueryDatabase` (src/app/database.py lines
16-22): `db` caches the `SQLDatabase` connection (`self._db`, initially
`None`). `connect` embeds the connection construction of `get_database`
(engine creation plus `SQLDatabase(...)`), which either yields a
connection or raises. -/
structure BigQueryDatabase where
  db : Option Database

/-- `BigQueryDatabase.get_database` (src/app/database.py lines 24-57):
return the cached connection if present, else build one, cache it on
success, and re-raise the construction failure otherwise. -/
def BigQueryDatabase.get_database (s : BigQueryDatabase)
    (connect : Except String Database) :
    Except String Database × BigQueryDatabase :=
  match s.db with
  | some d => (Except.ok d, s)
  | none =>
    match connect with
    | Except.ok d => (Except.ok d, { db := some d })
    | Except.error e => (Except.error e, s)

/-- `BigQueryDatabase.run_query` (src/app/database.py lines 110-126):
`db.run(query)` under a `try/except` that also covers `get_database`,
returning `"Error executing query: " + str(e)` on any exception. -/
def BigQueryDatabase.run_query (s : BigQueryDatabase)
    (connect : Except String Database) (query : String) :
    String × BigQueryDatabase :=
  match s.get_database connect with
  | (Except.error e, s1) => ("Error executing query: " ++ e, s1)
  | (Except.ok d, s1) =>
    match d.run query with
    | Except.ok result => (result, s1)
    | Except.error e => ("Error executing query: " ++ e, s1)

/-- `BigQueryDatabase.get_table_info` (src/app/database.py lines 93-108):
`db.get_table_info(table_names)` under a `try/except` that also covers
`get_database`, returning
`"Error retrieving table information: " + str(e)` on any exception. -/
def BigQueryDatabase.get_table_info (s : BigQueryDatabase)
    (connect : Except String Database)
    (table_names : Option (List String)) : String × BigQueryDatabase :=
  match s.get_database connect with
  | (Except.error e, s1) => ("Error retrieving table information: " ++ e, s1)
  | (Except.ok d, s1) =>
    match d.get_table_info table_names with
    | Except.ok info => (info, s1)
    | Except.error e => ("Error retrieving table information: " ++ e, s1)

/-- The mutable state of `RedshiftDatabase` (src/app/database_aws.py):
same caching of the connection as the BigQuery wrapper. -/
structure RedshiftDatabase where
  db : Option Database

/-- `RedshiftDatabase.get_database` (src/app/database_aws.py), identical
logic to `BigQueryDatabase.get_database`. -/
def RedshiftDatabase.get_database (s : RedshiftDatabase)
    (connect : Except String Database) :
    Except String Database × RedshiftDatabase :=
  match s.db with
  | some d => (Except.ok d, s)
  | none =>
    match connect with
    | Except.ok d => (Except.ok d, { db := some d })
    | Except.error e => (Except.error e, s)

/-- `RedshiftDatabase.run_query` (src/app/database_aws.py lines 166-182),
identical logic to `BigQueryDatabase.run_query`. -/
def RedshiftDatabase.run_query (s : RedshiftDatabase)
    (connect : Except String Database) (query : String) :
    String × RedshiftDatabase :=
  match s.get_database connect with
  | (Except.error e, s1) => ("Error executing query: " ++ e, s1)
  | (Except.ok d, s1) =>
    match d.run query with
    | Except.ok result => (result, s1)
    | Except.error e => ("Error executing query: " ++ e, s1)

/-- `RedshiftDatabase.get_table_info` (src/app/database_aws.py lines
149-164), identical logic to `BigQueryDatabase.get_table_info`. -/
def RedshiftDatabase.get_table_info (s : RedshiftDatabase)
    (connect : Except String Database)
    (table_names : Option (List String)) : String × RedshiftDatabase :=
  match s.get_database connect with
  | (Except.error e, s1) => ("Error retrieving table information: " ++ e, s1)
  | (Except.ok d, s1) =>
    match d.get_table_info table_names with
    | Except.ok info => (info, s1)
    | Except.error e => ("Error retrieving table information: " ++ e, s1)

/-- C5: `run_query` is a total function on both wrappers (the source's
`try/except` converts every exception — including a connection-
construction failure inside `get_database` — into a returned string):
its result is either the successful result of `db.run(query)` or the
string `"Error executing query: "` followed by the exception message. -/
theorem C5_run_query_total (connect : Except String Database)
    (query : String) (s : BigQueryDatabase) (t : RedshiftDatabase) :
    ((∃ d, (s.get_database connect).1 = Except.ok d ∧
        d.run query = Except.ok (s.run_query connect query).1) ∨
      ∃ msg, (s.run_query connect query).1 =
        "Error executing query: " ++ msg) ∧
    ((∃ d, (t.get_database connect).1 = Except.ok d ∧
        d.run query = Except.ok (t.run_query connect query).1) ∨
      ∃ msg, (t.run_query connect query).1 =
        "Error executing query: " ++ msg) := by
  constructor
  · unfold BigQueryDatabase.run_query
    rcases hdb : s.get_database connect with ⟨res, s1⟩
    cases res with
    | error e => exact Or.inr ⟨e, rfl⟩
    | ok d =>
      cases hr : d.run query with
      | ok r => exact Or.inl ⟨d, rfl, by simp [hr]⟩
      | error e => exact Or.inr ⟨e, by simp [hr]⟩
  · unfold RedshiftDatabase.run_query
    rcases hdb : t.get_database connect with ⟨res, t1⟩
    cases res with
    | error e => exact Or.inr ⟨e, rfl⟩
    | ok d =>
      cases hr : d.run query with
      | ok r => exact Or.inl ⟨d, rfl, by simp [hr]⟩
      | error e => exact Or.inr ⟨e, by simp [hr]⟩

/-- C7: with the warehouse unchanged between the two calls (the same
`connect` outcome and the same per-connection schema function), calling
`get_table_info` twice with the same table list — the second call on the
state left by the first — yields the same schema text, on both the
BigQuery and the Redshift wrapper. -/
theorem C7_get_table_info_idempotent (connect : Except String Database)
    (table_names : Option (List String)) (s : BigQueryDatabase)
    (t : RedshiftDatabase) :
    (s.get_table_info connect table_names).1 =
      (((s.get_table_info connect table_names).2).get_table_info connect
        table_names).1 ∧
    (t.get_table_info connect table_names).1 =
      (((t.get_table_info connect table_names).2).get_table_info connect
        table_names).1 := by
  constructor
  · rcases s with ⟨_ | d0⟩
    · cases connect with
      | error e =>
        simp [BigQueryDatabase.get_table_info, BigQueryDatabase.get_database]
      | ok d =>
        cases hinfo : d.get_table_info table_names <;>
          simp [BigQueryDatabase.get_table_info,
            BigQueryDatabase.get_database, hinfo]
    · cases hinfo : d0.get_table_info table_names <;>
        simp [BigQueryDatabase.get_table_info,
          BigQueryDatabase.get_database, hinfo]
  · rcases t with ⟨_ | d0⟩
    · cases connect with
      | error e =>
        simp [RedshiftDatabase.get_table_info, RedshiftDatabase.get_database]
      | ok d =>
        cases hinfo : d.get_table_info table_names <;>
          simp [RedshiftDatabase.get_table_info,
            RedshiftDatabase.get_database, hinfo]
    · cases hinfo : d0.get_table_info table_names <;>
        simp [RedshiftDatabase.get_table_info,
          RedshiftDatabase.get_database, hinfo]

/-- Python's `os.getenv(key, dflt)`: the environment is a partial map
from variable names to strings. -/
def pyGetenv (env : String → Option String) (key dflt : String) : String :=
  (env key).getD dflt

/-- Accumulate a decimal digit string into a number; any non-digit
character is a parse failure. -/
def digitsVal (acc : Nat) : List Char → Option Nat
  | [] => some acc
  | c :: cs =>
    if c.isDigit then digitsVal (acc * 10 + (c.toNat - 48)) cs else none

/-- Python's `int(s)` on the strings the configuration parses (an
optional sign followed by decimal digits); `none` embeds the
`ValueError` branch. -/
def pyInt (s : String) : Option Int :=
  match s.data with
  | [] => none
  | '-' :: rest =>
    match rest with
    | [] => none
    | _ => (digitsVal 0 rest).map (fun n => -(n : Int))
  | cs => (digitsVal 0 cs).map (fun n => (n : Int))

/-- `Config.SQL_AGENT_MAX_ITERATIONS` (src/app/config.py line 45):
`int(os.getenv("SQL_AGENT_MAX_ITERATIONS", "15"))`. -/
def Config.SQL_AGENT_MAX_ITERATIONS (env : String → Option String) :
    Option Int :=
  pyInt (pyGetenv env "SQL_AGENT_MAX_ITERATIONS" "15")

/-- `Config.SQL_AGENT_MAX_EXECUTION_TIME` (src/app/config.py line 46):
`int(os.getenv("SQL_AGENT_MAX_EXECUTION_TIME", "100"))`. -/
def Config.SQL_AGENT_MAX_EXECUTION_TIME (env : String → Option String) :
    Option Int :=
  pyInt (pyGetenv env "SQL_AGENT_MAX_EXECUTION_TIME" "100")

/-- `Config.SQL_TOP_K_RESULTS` (src/app/config.py line 47):
`int(os.getenv("SQL_TOP_K_RESULTS", "10"))`. -/
def Config.SQL_TOP_K_RESULTS (env : String → Option String) : Option Int :=
  pyInt (pyGetenv env "SQL_TOP_K_RESULTS" "10")

/-- `ConfigAWS.SQL_AGENT_MAX_ITERATIONS` (src/app/config_aws.py line 54):
same expression as the GCP configuration. -/
def ConfigAWS.SQL_AGENT_MAX_ITERATIONS (env : String → Option String) :
    Option Int :=
  pyInt (pyGetenv env "SQL_AGENT_MAX_ITERATIONS" "15")

/-- `ConfigAWS.SQL_AGENT_MAX_EXECUTION_TIME` (src/app/config_aws.py line
55): same expression as the GCP configuration. -/
def ConfigAWS.SQL_AGENT_MAX_EXECUTION_TIME (env : String → Option String) :
    Option Int :=
  pyInt (pyGetenv env "SQL_AGENT_MAX_EXECUTION_TIME" "100")

/-- `ConfigAWS.SQL_TOP_K_RESULTS` (src/app/config_aws.py line 56): same
expression as the GCP configuration. -/
def ConfigAWS.SQL_TOP_K_RESULTS (env : String → Option String) :
    Option Int :=
  pyInt (pyGetenv env "SQL_TOP_K_RESULTS" "10")

/-- C8: with the three environment variables unset, the configuration
values are 15 reasoning steps, 100 wall-clock seconds and a top-K of 10,
identically in the GCP and the AWS configuration. -/
theorem C8_config_defaults (env : String → Option String)
    (h1 : env "SQL_AGENT_MAX_ITERATIONS" = none)
    (h2 : env "SQL_AGENT_MAX_EXECUTION_TIME" = none)
    (h3 : env "SQL_TOP_K_RESULTS" = none) :
    Config.SQL_AGENT_MAX_ITERATIONS env = some 15 ∧
    Config.SQL_AGENT_MAX_EXECUTION_TIME env = some 100 ∧
    Config.SQL_TOP_K_RESULTS env = some 10 ∧
    ConfigAWS.SQL_AGENT_MAX_ITERATIONS env = some 15 ∧
    ConfigAWS.SQL_AGENT_MAX_EXECUTION_TIME env = some 100 ∧
    ConfigAWS.SQL_TOP_K_RESULTS env = some 10 := by
  unfold Config.SQL_AGENT_MAX_ITERATIONS Config.SQL_AGENT_MAX_EXECUTION_TIME
    Config.SQL_TOP_K_RESULTS ConfigAWS.SQL_AGENT_MAX_ITERATIONS
    ConfigAWS.SQL_AGENT_MAX_EXECUTION_TIME ConfigAWS.SQL_TOP_K_RESULTS
    pyGetenv
  rw [h1, h2, h3]
  refine ⟨by decide, by decide, by decide, by decide, by decide, by decide⟩

/-- C8, witness: the empty environment. -/
theorem C8_witness :
    Config.SQL_AGENT_MAX_ITERATIONS (fun _ => none) = some 15 ∧
    Config.SQL_AGENT_MAX_EXECUTION_TIME (fun _ => none) = some 100 ∧
    Config.SQL_TOP_K_RESULTS (fun _ => none) = some 10 ∧
    ConfigAWS.SQL_AGENT_MAX_ITERATIONS (fun _ => none) = some 15 ∧
    ConfigAWS.SQL_AGENT_MAX_EXECUTION_TIME (fun _ => none) = some 100 ∧
    ConfigAWS.SQL_TOP_K_RESULTS (fun _ => none) = some 10 :=
  C8_config_defaults (fun _ => none) rfl rfl rfl
